import Mathlib

/-!
# Mesh builders of `mesh.cc`

The program is a sequence of calls into the deal.II mesh library around one
hand-written vertex/cell table.  This development embeds

* the literal tables of `create_coarse_grid` (`vertices`, `cell_vertices`) and
  the loop that copies them into `CellData` records,
* the six builders as state-passing functions, one step per statement of the
  source, and
* the per-vertex update of `shift_cube`.

Coordinates are `double` in the source.  They are modelled as exact rationals:
every literal of the tables is an integer below `2^53`, so the products with
`s` are exact in `double` as well.

The deal.II routines themselves are not part of the repository.  The ones a
builder passes a mesh through are modelled after their documented behaviour
at the level the builders observe (vertex lists, cell lists, the refinement
tree); the shape factories, whose output is fixed library data, are taken as
parameters.
-/

namespace Mesh

/-! ## Data model -/

/-- Stands for `Point<2>` -/
abbrev Point2 := ℚ × ℚ

/-- Stands for `Point<3>` -/
abbrev Point3 := ℚ × ℚ × ℚ

/-- Stands for `GeometryInfo<dim>::vertices_per_cell` -/
def vertices_per_cell (dim : Nat) : Nat := 2 ^ dim

/-- Stands for `GeometryInfo<dim>::max_children_per_cell` -/
def max_children_per_cell (dim : Nat) : Nat := 2 ^ dim

/-- Stands for `CellData<dim>`: the vertex indices (`unsigned int`) of one cell and
its material id -/
structure CellData where
  vertices : List Nat
  material_id : Nat
deriving DecidableEq

/-- Identifies a cell of a refined mesh the way the library does: the coarse
cell it descends from and the child numbers on the way down -/
structure CellId where
  coarse_cell : Nat
  child_indices : List Nat
deriving DecidableEq

/-- Stands for `Triangulation<dim>`: the vertices and cells of the coarse mesh and the
list of active cells.  The positions of vertices created by refinement are
chosen by the library (manifold description) and are not tracked. -/
structure Triangulation (dim : Nat) (P : Type) where
  vertices : List P
  cells : List CellData
  active : List CellId

/-- Vertex and cell lists as a shape factory of the library produces them -/
structure GridData where
  vertices : List Point2
  cells : List CellData

/-! ## Library routines -/

/-- Stands for `Triangulation::n_active_cells` -/
def Triangulation.n_active_cells {dim : Nat} {P : Type} (t : Triangulation dim P) : Nat :=
  t.active.length

/-- The active cells of an unrefined mesh over `n` coarse cells -/
def coarse_ids (n : Nat) : List CellId :=
  (List.range n).map fun i => CellId.mk i []

/-- Stands for `Triangulation::create_triangulation(vertices, cells, SubCellData())`:
one active cell per `CellData` record -/
def create_triangulation {dim : Nat} {P : Type} (vertices : List P)
    (cells : List CellData) : Triangulation dim P :=
  Triangulation.mk vertices cells (coarse_ids cells.length)

/-- A default-constructed, empty triangulation -/
def Triangulation.empty {dim : Nat} {P : Type} : Triangulation dim P :=
  create_triangulation [] []

/-- The mesh has not been refined (`n_levels() == 1`) -/
def Triangulation.is_coarse {dim : Nat} {P : Type} (t : Triangulation dim P) : Bool :=
  decide (t.active = coarse_ids t.cells.length)

/-- The children a cell is replaced by when it is refined -/
def CellId.children (dim : Nat) (c : CellId) : List CellId :=
  (List.range (max_children_per_cell dim)).map fun k =>
    CellId.mk c.coarse_cell (c.child_indices ++ [k])

/-- One round of `set_all_refine_flags(); execute_coarsening_and_refinement()`:
every active cell is replaced by its children -/
def Triangulation.execute_refinement {dim : Nat} {P : Type}
    (t : Triangulation dim P) : Triangulation dim P :=
  Triangulation.mk t.vertices t.cells (t.active.flatMap (CellId.children dim))

/-- Stands for `Triangulation::refine_global(times)` -/
def Triangulation.refine_global {dim : Nat} {P : Type}
    (t : Triangulation dim P) : Nat → Triangulation dim P
  | 0 => t
  | times + 1 => t.execute_refinement.refine_global times

/-- Stands for `GridGenerator::extrude_triangulation(input, n_slices, height, result)`.
The library places `n_slices` copies of the vertices at equidistant heights
from `0` to `height` and creates one hexahedron per input cell between each
pair of consecutive slices.  It requires a coarse input, `height > 0` and
`n_slices >= 2` (the call site in `cube_hole` notes "number of slices
(minimum 2)"). -/
def extrude_triangulation (input : Triangulation 2 Point2) (n_slices : Nat)
    (height : ℚ) : Option (Triangulation 3 Point3) :=
  if input.is_coarse = true ∧ 0 < height ∧ 2 ≤ n_slices then
    let n_vertices := input.vertices.length
    let delta_h := height / ((n_slices : ℚ) - 1)
    let points : List Point3 := (List.range n_slices).flatMap fun slice_n =>
      input.vertices.map fun v => (v.1, v.2, (slice_n : ℚ) * delta_h)
    let cells : List CellData := input.cells.flatMap fun cell =>
      (List.range (n_slices - 1)).map fun slice_n =>
        CellData.mk
          (cell.vertices.map (fun v => v + slice_n * n_vertices) ++
            cell.vertices.map (fun v => v + (slice_n + 1) * n_vertices))
          cell.material_id
    some (create_triangulation points cells)
  else
    none

/-- Stands for `GridTools::transform(f, triangulation)`: `f` is applied to every vertex -/
def transform (f : Point2 → Point2) (t : Triangulation 2 Point2) :
    Triangulation 2 Point2 :=
  Triangulation.mk (t.vertices.map f) t.cells t.active

/-! ## `print_mesh_info` -/

/-- What `print_mesh_info` prints: the dimension, the number of active cells
and the name of the file it writes -/
structure MeshInfo where
  dimension : Nat
  no_of_cells : Nat
  filename : String
deriving DecidableEq

/-- Models `print_mesh_info<dim>(triangulation, filename)` -/
def print_mesh_info {dim : Nat} {P : Type} (triangulation : Triangulation dim P)
    (filename : String) : MeshInfo :=
  MeshInfo.mk dim triangulation.n_active_cells filename

/-! ## Builder state -/

/-- The steps a builder takes, with their scalar arguments: the library
calls and the vertex loop of `shift_cube` -/
inductive Call where
  | hyper_cube_with_cylindrical_hole (inner_radius outer_radius : ℚ)
  | subdivided_hyper_rectangle (repetitions : List Nat) (p1 p2 : Point2)
  | merge_triangulations
  | cheese (repetitions : List Nat)
  | create_triangulation
  | transform
  | shift_vertices
  | extrude_triangulation (n_slices : Nat) (height : ℚ)
  | refine_global (dim times : Nat)
  | write_vtk (dim : Nat) (filename : String)
deriving DecidableEq

/-- The local objects of a builder and what it has done so far: the 2D mesh
`triangulation`, the 3D mesh `out`, the library calls in program order, the
console output and the meshes written to the two kinds of VTK file -/
structure State where
  triangulation : Triangulation 2 Point2
  out : Triangulation 3 Point3
  calls : List Call
  console : List MeshInfo
  vtk_2d : List (String × Triangulation 2 Point2)
  vtk_3d : List (String × Triangulation 3 Point3)

/-- State on entry: `Triangulation<2> triangulation; Triangulation<3> out;` -/
def State.start : State :=
  State.mk Triangulation.empty Triangulation.empty [] [] [] []

/-- The unrefined 2D mesh over the grid of a shape factory -/
def GridData.mesh (grid : GridData) : Triangulation 2 Point2 :=
  create_triangulation grid.vertices grid.cells

/-- A shape factory fills `triangulation` with its grid -/
def State.generate (st : State) (call : Call) (grid : GridData) : State :=
  { st with
    triangulation := grid.mesh
    calls := st.calls ++ [call] }

/-- A shape factory fills a local mesh other than `triangulation` with its
grid: the call is recorded and the mesh returned -/
def State.generate_local (st : State) (call : Call) (grid : GridData) :
    State × GridData :=
  ({ st with calls := st.calls ++ [call] }, grid)

/-- Step `GridGenerator::extrude_triangulation(triangulation, n_slices, height, out)` -/
def State.extrude_triangulation (st : State) (n_slices : Nat) (height : ℚ) :
    Option State :=
  (Mesh.extrude_triangulation st.triangulation n_slices height).map fun result =>
    { st with
      out := result
      calls := st.calls ++ [Call.extrude_triangulation n_slices height] }

/-- Step `GridTools::transform(f, triangulation)` -/
def State.transform (st : State) (f : Point2 → Point2) : State :=
  { st with
    triangulation := Mesh.transform f st.triangulation
    calls := st.calls ++ [Call.transform] }

/-- Step `triangulation.refine_global(times)` -/
def State.refine_global_2d (st : State) (times : Nat) : State :=
  { st with
    triangulation := st.triangulation.refine_global times
    calls := st.calls ++ [Call.refine_global 2 times] }

/-- Step `out.refine_global(times)` -/
def State.refine_global_3d (st : State) (times : Nat) : State :=
  { st with
    out := st.out.refine_global times
    calls := st.calls ++ [Call.refine_global 3 times] }

/-- Step `print_mesh_info(triangulation, filename)` -/
def State.print_mesh_info_2d (st : State) (filename : String) : State :=
  { st with
    calls := st.calls ++ [Call.write_vtk 2 filename]
    console := st.console ++ [print_mesh_info st.triangulation filename]
    vtk_2d := st.vtk_2d ++ [(filename, st.triangulation)] }

/-- Step `print_mesh_info(out, filename)` -/
def State.print_mesh_info_3d (st : State) (filename : String) : State :=
  { st with
    calls := st.calls ++ [Call.write_vtk 3 filename]
    console := st.console ++ [print_mesh_info st.out filename]
    vtk_3d := st.vtk_3d ++ [(filename, st.out)] }

/-! ## The builders that start from a library shape -/

/-- Models `cube_hole`; `hole` is the grid of
`hyper_cube_with_cylindrical_hole(triangulation, 0.25, 1.0)` -/
def cube_hole (hole : GridData) : Option State := do
  let st := State.start
  let st := st.generate (Call.hyper_cube_with_cylindrical_hole 0.25 1.0) hole
  let st ← st.extrude_triangulation 3 2.0
  let st := st.refine_global_2d 4
  let st := st.refine_global_3d 4
  let st := st.print_mesh_info_2d "cube_hole_2D.vtk"
  let st := st.print_mesh_info_3d "cube_hole_3D.vtk"
  pure st

/-- Models `Grid6Func`; `trans` stands for `y ↦ tanh(2 y) / tanh(2)`, computed by
the C math library -/
structure Grid6Func where
  trans : ℚ → ℚ

/-- Models `Grid6Func::operator()` -/
def Grid6Func.call (f : Grid6Func) (p : Point2) : Point2 :=
  (p.1, f.trans p.2)

/-- Models `subdivided_rect`; `rect` is the grid of `subdivided_hyper_rectangle`
for repetitions `(3, 2)` and the corners `(1, -1)`, `(4, 1)` -/
def subdivided_rect (f : Grid6Func) (rect : GridData) : Option State := do
  let st := State.start
  let repetitions := [3, 2]
  let st := st.generate
    (Call.subdivided_hyper_rectangle repetitions (1.0, -1.0) (4.0, 1.0)) rect
  let st ← st.extrude_triangulation 3 2.0
  let st := st.transform f.call
  let st := st.refine_global_2d 4
  let st := st.refine_global_3d 4
  let st := st.print_mesh_info_2d "subdivided_rect_2D.vtk"
  let st := st.print_mesh_info_3d "subdivided_rect_3D.vtk"
  pure st

/-- Models `merge_cube_rect`; `merge` stands for `merge_triangulations`, `hole` and
`rect` for the grids the two shape factories put into `tria1` and `tria2` -/
def merge_cube_rect (merge : GridData → GridData → GridData)
    (hole rect : GridData) : Option State := do
  let st := State.start
  let (st, tria1) := st.generate_local (Call.hyper_cube_with_cylindrical_hole 0.25 1.0) hole
  let repetitions := [3, 2]
  let (st, tria2) := st.generate_local
    (Call.subdivided_hyper_rectangle repetitions (1.0, -1.0) (4.0, 1.0)) rect
  let st := st.generate Call.merge_triangulations (merge tria1 tria2)
  let st ← st.extrude_triangulation 3 2.0
  let st := st.refine_global_2d 4
  let st := st.refine_global_3d 4
  let st := st.print_mesh_info_2d "merge_cube_rect_2D.vtk"
  let st := st.print_mesh_info_3d "merge_cube_rect_3D.vtk"
  pure st

/-- The update `shift_cube` applies to a vertex:
`if (std::abs(v(1) - 1.0) < 1e-5) v(1) += 0.5;` -/
def shift_vertex (v : Point2) : Point2 :=
  if |v.2 - 1.0| < 1e-5 then (v.1, v.2 + 0.5) else v

/-- The vertex indices the inner loop of `shift_cube` visits in one cell:
`cell->vertex(i)` for `i < GeometryInfo<2>::vertices_per_cell` -/
def visited (cell : CellData) : List Nat :=
  (List.range (vertices_per_cell 2)).filterMap fun i => cell.vertices[i]?

/-- The inner loop of `shift_cube` on one cell; `Point<2> &v` is a reference
into the vertex array, so the update is in place -/
def shift_cell (vertices : List Point2) (cell : CellData) : List Point2 :=
  (visited cell).foldl (fun vs index => vs.modify shift_vertex index) vertices

/-- The nested loop of `shift_cube` over the active cells.  The mesh is
unrefined at that point, so the active cells are the coarse cells. -/
def shift_vertices (t : Triangulation 2 Point2) : Triangulation 2 Point2 :=
  Triangulation.mk (t.cells.foldl shift_cell t.vertices) t.cells t.active

/-- The loop of `shift_cube` as a step -/
def State.shift_vertices (st : State) : State :=
  { st with
    triangulation := Mesh.shift_vertices st.triangulation
    calls := st.calls ++ [Call.shift_vertices] }

/-- Models `shift_cube` -/
def shift_cube (hole : GridData) : Option State := do
  let st := State.start
  let st := st.generate (Call.hyper_cube_with_cylindrical_hole 0.25 1.0) hole
  let st := st.shift_vertices
  let st ← st.extrude_triangulation 3 2.0
  let st := st.refine_global_2d 2
  let st := st.refine_global_3d 2
  let st := st.print_mesh_info_2d "shift_cube_2D.vtk"
  let st := st.print_mesh_info_3d "shift_cube_3D.vtk"
  pure st

/-- Models `cheese`; `grid` is the grid of `GridGenerator::cheese` for `3 x 2` holes -/
def cheese (grid : GridData) : Option State := do
  let st := State.start
  let repetitions := [3, 2]
  let st := st.generate (Call.cheese repetitions) grid
  let st ← st.extrude_triangulation 3 2.0
  let st := st.refine_global_2d 4
  let st := st.refine_global_3d 4
  let st := st.print_mesh_info_2d "cheese_2D.vtk"
  let st := st.print_mesh_info_3d "cheese_3D.vtk"
  pure st

/-! ## `create_coarse_grid` -/

/-- The scale factor: `unsigned int s = 1000`, converted to `double` in every product -/
def s : ℚ := 1000

/-- The vertex table of `create_coarse_grid`; the comments give the index of
the last vertex of each group, as in the source -/
def vertices : List Point2 := [
  (548*s, 5934*s), (548*s, 5936*s), (548*s, 5938*s), (548*s, 5940*s),
  (548*s, 5942*s),
  -- 4
  (550*s, 5926*s), (550*s, 5928*s), (550*s, 5930*s), (550*s, 5932*s), (550*s, 5934*s),
  (550*s, 5936*s), (550*s, 5938*s), (550*s, 5940*s), (550*s, 5942*s), (550*s, 5944*s),
  -- 14
  (552*s, 5922*s), (552*s, 5924*s), (552*s, 5926*s), (552*s, 5928*s),
  (552*s, 5930*s), (552*s, 5932*s), (552*s, 5934*s), (552*s, 5936*s),
  (552*s, 5938*s), (552*s, 5940*s), (552*s, 5942*s), (552*s, 5944*s),
  -- 26
  (554*s, 5922*s), (554*s, 5924*s), (554*s, 5926*s), (554*s, 5928*s),
  (554*s, 5930*s), (554*s, 5932*s), (554*s, 5934*s),
  (554*s, 5936*s), (554*s, 5938*s), (554*s, 5940*s), (554*s, 5942*s),
  -- 37
  (556*s, 5920*s), (556*s, 5922*s), (556*s, 5924*s), (556*s, 5926*s),
  (556*s, 5928*s), (556*s, 5930*s), (556*s, 5932*s), (556*s, 5934*s),
  (556*s, 5936*s), (556*s, 5938*s), (556*s, 5940*s), (556*s, 5942*s),
  -- 49
  (558*s, 5920*s), (558*s, 5922*s), (558*s, 5924*s), (558*s, 5926*s),
  (558*s, 5928*s), (558*s, 5930*s), (558*s, 5932*s), (558*s, 5934*s),
  (558*s, 5936*s), (558*s, 5938*s), (558*s, 5940*s), (558*s, 5942*s),
  (558*s, 5944*s), (558*s, 5946*s),
  -- 63
  (560*s, 5918*s),
  (560*s, 5920*s), (560*s, 5922*s), (560*s, 5924*s), (560*s, 5926*s),
  (560*s, 5928*s), (560*s, 5930*s), (560*s, 5932*s), (560*s, 5934*s),
  (560*s, 5936*s), (560*s, 5938*s), (560*s, 5940*s), (560*s, 5942*s),
  (560*s, 5944*s), (560*s, 5946*s),
  -- 78
  (562*s, 5918*s), (562*s, 5920*s), (562*s, 5922*s), (562*s, 5924*s),
  (562*s, 5926*s), (562*s, 5928*s), (562*s, 5930*s), (562*s, 5932*s),
  (562*s, 5934*s), (562*s, 5936*s), (562*s, 5938*s), (562*s, 5940*s),
  (562*s, 5942*s), (562*s, 5944*s), (562*s, 5946*s),
  -- 93
  (564*s, 5918*s), (564*s, 5920*s), (564*s, 5922*s), (564*s, 5924*s),
  (564*s, 5926*s),
  (564*s, 5928*s), (564*s, 5930*s), (564*s, 5932*s), (564*s, 5934*s),
  (564*s, 5936*s),
  (564*s, 5938*s), (564*s, 5940*s), (564*s, 5942*s), (564*s, 5944*s),
  (564*s, 5946*s), (564*s, 5948*s),
  (564*s, 5950*s),
  -- 110
  (566*s, 5918*s), (566*s, 5920*s), (566*s, 5922*s), (566*s, 5924*s),
  (566*s, 5926*s),
  (566*s, 5928*s), (566*s, 5930*s), (566*s, 5932*s), (566*s, 5934*s),
  (566*s, 5936*s), (566*s, 5938*s), (566*s, 5940*s), (566*s, 5942*s),
  (566*s, 5944*s), (566*s, 5946*s), (566*s, 5948*s), (566*s, 5950*s),
  -- 127
  (568*s, 5918*s), (568*s, 5920*s), (568*s, 5922*s), (568*s, 5924*s),
  (568*s, 5926*s), (568*s, 5928*s), (568*s, 5930*s), (568*s, 5932*s),
  (568*s, 5934*s), (568*s, 5936*s), (568*s, 5938*s), (568*s, 5940*s),
  (568*s, 5942*s), (568*s, 5944*s), (568*s, 5946*s),
  (568*s, 5948*s), (568*s, 5950*s),
  -- 144
  (570*s, 5920*s), (570*s, 5922*s), (570*s, 5924*s), (570*s, 5926*s), (570*s, 5928*s),
  (570*s, 5930*s), (570*s, 5932*s), (570*s, 5934*s), (570*s, 5936*s),
  (570*s, 5938*s), (570*s, 5940*s), (570*s, 5942*s), (570*s, 5944*s),
  (570*s, 5946*s), (570*s, 5948*s), (570*s, 5950*s), (570*s, 5952*s),
  (570*s, 5954*s),
  -- 162
  (572*s, 5920*s), (572*s, 5922*s), (572*s, 5924*s), (572*s, 5926*s),
  (572*s, 5928*s), (572*s, 5930*s), (572*s, 5932*s), (572*s, 5934*s),
  (572*s, 5936*s), (572*s, 5938*s), (572*s, 5940*s), (572*s, 5942*s),
  (572*s, 5944*s), (572*s, 5946*s), (572*s, 5948*s),
  (572*s, 5950*s), (572*s, 5952*s), (572*s, 5954*s),
  -- 180
  (574*s, 5918*s), (574*s, 5920*s), (574*s, 5922*s), (574*s, 5924*s),
  (574*s, 5926*s), (574*s, 5928*s), (574*s, 5930*s), (574*s, 5932*s),
  (574*s, 5934*s), (574*s, 5936*s), (574*s, 5938*s), (574*s, 5940*s),
  (574*s, 5942*s), (574*s, 5944*s), (574*s, 5946*s), (574*s, 5948*s),
  (574*s, 5950*s), (574*s, 5952*s), (574*s, 5954*s), (574*s, 5956*s),
  -- 200
  (576*s, 5916*s), (576*s, 5918*s), (576*s, 5920*s), (576*s, 5922*s),
  (576*s, 5924*s), (576*s, 5926*s), (576*s, 5928*s), (576*s, 5930*s),
  (576*s, 5932*s), (576*s, 5934*s), (576*s, 5936*s), (576*s, 5938*s),
  (576*s, 5940*s), (576*s, 5942*s), (576*s, 5944*s), (576*s, 5946*s),
  (576*s, 5948*s), (576*s, 5950*s), (576*s, 5952*s), (576*s, 5954*s),
  (576*s, 5956*s),
  -- 221
  (578*s, 5916*s), (578*s, 5918*s), (578*s, 5920*s), (578*s, 5922*s),
  (578*s, 5924*s), (578*s, 5926*s), (578*s, 5928*s), (578*s, 5930*s),
  (578*s, 5932*s), (578*s, 5934*s), (578*s, 5936*s), (578*s, 5938*s),
  (578*s, 5940*s), (578*s, 5942*s), (578*s, 5944*s), (578*s, 5946*s),
  (578*s, 5948*s), (578*s, 5950*s),
  (578*s, 5952*s), (578*s, 5954*s), (578*s, 5956*s),
  -- 242
  (580*s, 5916*s), (580*s, 5918*s), (580*s, 5920*s), (580*s, 5922*s),
  (580*s, 5924*s), (580*s, 5926*s), (580*s, 5928*s), (580*s, 5930*s),
  (580*s, 5932*s),
  (580*s, 5936*s), (580*s, 5938*s), (580*s, 5940*s), (580*s, 5942*s),
  (580*s, 5944*s), (580*s, 5946*s), (580*s, 5948*s), (580*s, 5950*s), (580*s, 5952*s),
  (580*s, 5954*s), (580*s, 5956*s),
  -- 262
  (582*s, 5916*s), (582*s, 5918*s), (582*s, 5920*s), (582*s, 5922*s),
  (582*s, 5924*s), (582*s, 5926*s), (582*s, 5928*s), (582*s, 5930*s), (582*s, 5932*s),
  (582*s, 5942*s), (582*s, 5944*s),
  -- 273
  (584*s, 5916*s), (584*s, 5918*s), (584*s, 5920*s), (584*s, 5922*s), (584*s, 5924*s),
  (584*s, 5926*s), (584*s, 5928*s), (584*s, 5930*s),
  -- 281
  (586*s, 5918*s), (586*s, 5920*s), (586*s, 5922*s), (586*s, 5924*s),
  (586*s, 5926*s),
  -- 286
  (588*s, 5920*s), (588*s, 5922*s), (588*s, 5924*s),
  -- 289
  (590*s, 5922*s), (590*s, 5924*s)
  -- 291
  ]

/-- Aggregate initialisation of a `std::array<int, n>`: elements without an
initialiser are zero -/
def std_array (n : Nat) (init : List Int) : List Int :=
  init ++ List.replicate (n - init.length) 0

/-- The cell table of `create_coarse_grid<dim>`, of type
`std::vector<std::array<int, GeometryInfo<dim>::vertices_per_cell>>`; every row is
written with four initialisers.  The comments give the index of the last cell
of each group, as in the source. -/
def cell_vertices (dim : Nat) : List (List Int) := [
  [0, 9, 1, 10], [1, 10, 2, 11], [2, 11, 3, 12], [3, 12, 4, 13],
  -- 3
  [5, 17, 6, 18], [6, 18, 7, 19], [7, 19, 8, 20], [8, 20, 9, 21],
  [9, 21, 10, 22], [10, 22, 11, 23], [11, 23, 12, 24], [12, 24, 13, 25],
  [13, 25, 14, 26],
  -- 12
  [15, 27, 16, 28], [16, 28, 17, 29], [17, 29, 18, 30], [18, 30, 19, 31],
  [19, 31, 20, 32], [20, 32, 21, 33], [21, 33, 22, 34], [22, 34, 23, 35],
  [23, 35, 24, 36], [24, 36, 25, 37],
  -- 22
  [27, 39, 28, 40], [28, 40, 29, 41], [29, 41, 30, 42], [30, 42, 31, 43],
  [31, 43, 32, 44], [32, 44, 33, 45], [33, 45, 34, 46], [34, 46, 35, 47],
  [35, 47, 36, 48],
  -- 31
  [38, 50, 39, 51], [39, 51, 40, 52], [40, 52, 41, 53], [41, 53, 42, 54],
  [42, 54, 43, 55], [43, 55, 44, 56], [44, 56, 45, 57], [45, 57, 46, 58],
  [46, 58, 47, 59], [47, 59, 48, 60], [48, 60, 49, 61],
  -- 42
  [50, 65, 51, 66], [51, 66, 52, 67], [52, 67, 53, 68], [53, 68, 54, 69],
  [54, 69, 55, 70], [55, 70, 56, 71], [56, 71, 57, 72], [57, 72, 58, 73],
  [58, 73, 59, 74], [59, 74, 60, 75], [60, 75, 61, 76], [61, 76, 62, 77],
  [62, 77, 63, 78],
  -- 55
  [64, 79, 65, 80], [65, 80, 66, 81], [66, 81, 67, 82], [67, 82, 68, 83],
  [68, 83, 69, 84], [69, 84, 70, 85], [70, 85, 71, 86], [71, 86, 72, 87],
  [72, 87, 73, 88], [73, 88, 74, 89], [74, 89, 75, 90], [75, 90, 76, 91],
  [76, 91, 77, 92], [77, 92, 78, 93],
  -- 69
  [79, 94, 80, 95], [80, 95, 81, 96], [81, 96, 82, 97], [82, 97, 83, 98],
  [83, 98, 84, 99], [84, 99, 85, 100], [85, 100, 86, 101], [86, 101, 87, 102],
  [87, 102, 88, 103], [88, 103, 89, 104], [89, 104, 90, 105], [90, 105, 91, 106],
  [91, 106, 92, 107], [92, 107, 93, 108],
  -- 83
  [94, 111, 95, 112], [95, 112, 96, 113], [96, 113, 97, 114], [97, 114, 98, 115],
  [98, 115, 99, 116], [99, 116, 100, 117], [100, 117, 101, 118], [101, 118, 102, 119],
  [102, 119, 103, 120], [103, 120, 104, 121], [104, 121, 105, 122], [105, 122, 106, 123],
  [106, 123, 107, 124], [107, 124, 108, 125], [108, 125, 109, 126], [109, 126, 110, 127],
  -- 99
  [111, 128, 112, 129], [112, 129, 113, 130], [113, 130, 114, 131], [114, 131, 115, 132],
  [115, 132, 116, 133], [116, 133, 117, 134], [117, 134, 118, 135], [118, 135, 119, 136],
  [119, 136, 120, 137], [120, 137, 121, 138], [121, 138, 122, 139], [122, 139, 123, 140],
  [123, 140, 124, 141], [124, 141, 125, 142], [125, 142, 126, 143], [126, 143, 127, 144],
  -- 115
  [129, 145, 130, 146], [130, 146, 131, 147], [131, 147, 132, 148], [132, 148, 133, 149],
  [133, 149, 134, 150], [134, 150, 135, 151], [135, 151, 136, 152], [136, 152, 137, 153],
  [137, 153, 138, 154], [138, 154, 139, 155], [139, 155, 140, 156], [140, 156, 141, 157],
  [141, 157, 142, 158], [142, 158, 143, 159], [143, 159, 144, 160],
  -- 130
  [145, 163, 146, 164], [146, 164, 147, 165], [147, 165, 148, 166], [148, 166, 149, 167],
  [149, 167, 150, 168], [150, 168, 151, 169], [151, 169, 152, 170], [152, 170, 153, 171],
  [153, 171, 154, 172], [154, 172, 155, 173], [155, 173, 156, 174], [156, 174, 157, 175],
  [157, 175, 158, 176], [158, 176, 159, 177], [159, 177, 160, 178], [160, 178, 161, 179],
  [161, 179, 162, 180],
  -- 147
  [163, 182, 164, 183], [164, 183, 165, 184], [165, 184, 166, 185], [166, 185, 167, 186],
  [167, 186, 168, 187], [168, 187, 169, 188], [169, 188, 170, 189], [170, 189, 171, 190],
  [171, 190, 172, 191], [172, 191, 173, 192], [173, 192, 174, 193], [174, 193, 175, 194],
  [175, 194, 176, 195], [176, 195, 177, 196], [177, 196, 178, 197], [178, 197, 179, 198],
  [179, 198, 180, 199],
  -- 164
  [181, 202, 182, 203], [182, 203, 183, 204], [183, 204, 184, 205], [184, 205, 185, 206],
  [185, 206, 186, 207], [186, 207, 187, 208], [187, 208, 188, 209], [188, 209, 189, 210],
  [189, 210, 190, 211], [190, 211, 191, 212], [191, 212, 192, 213], [192, 213, 193, 214],
  [193, 214, 194, 215], [194, 215, 195, 216], [195, 216, 196, 217], [196, 217, 197, 218],
  [197, 218, 198, 219], [198, 219, 199, 220], [199, 220, 200, 221],
  -- 183
  [201, 222, 202, 223], [202, 223, 203, 224], [203, 224, 204, 225], [204, 225, 205, 226],
  [205, 226, 206, 227], [206, 227, 207, 228], [207, 228, 208, 229], [208, 229, 209, 230],
  [209, 230, 210, 231], [210, 231, 211, 232], [211, 232, 212, 233], [212, 233, 213, 234],
  [213, 234, 214, 235], [214, 235, 215, 236], [215, 236, 216, 237], [216, 237, 217, 238],
  [217, 238, 218, 239], [218, 239, 219, 240], [219, 240, 220, 241], [220, 241, 221, 242],
  -- 203
  [222, 243, 223, 244], [223, 244, 224, 245], [224, 245, 225, 246], [225, 246, 226, 247],
  [226, 247, 227, 248], [227, 248, 228, 249], [228, 249, 229, 250], [229, 250, 230, 251],
  [232, 252, 233, 253], [233, 253, 234, 254], [234, 254, 235, 255], [235, 255, 236, 256],
  [236, 256, 237, 257], [237, 257, 238, 258], [239, 259, 240, 260], [240, 260, 241, 261],
  [241, 261, 242, 262],
  -- 220
  [243, 263, 244, 264], [244, 264, 245, 265], [245, 265, 246, 266], [246, 266, 247, 267],
  [247, 267, 248, 268], [248, 268, 249, 269], [249, 269, 250, 270], [250, 270, 251, 271],
  [255, 272, 256, 273],
  -- 229
  [263, 274, 264, 275], [264, 275, 265, 276], [265, 276, 266, 277], [266, 277, 267, 278],
  [267, 278, 268, 279], [268, 279, 269, 280], [269, 280, 270, 281],
  -- 236
  [275, 282, 276, 283], [276, 283, 277, 284], [277, 284, 278, 285], [278, 285, 279, 286],
  -- 240
  [283, 287, 284, 288], [284, 288, 285, 289],
  -- 242
  [288, 290, 289, 291]
  -- 243
  ].map (std_array (vertices_per_cell dim))

/-- Stands for `n_cells = cell_vertices.size()` -/
def n_cells (dim : Nat) : Nat := (cell_vertices dim).length

/-- The copy loop of `create_coarse_grid`:
`cells[i].vertices[j] = cell_vertices[i][j]` for `j < GeometryInfo<2>::vertices_per_cell`
(an `int` stored as `unsigned int`) and `cells[i].material_id = 0`.  A read
past the end of a row or of the table gives `none`. -/
def cells (dim : Nat) : Option (List CellData) :=
  (List.range (n_cells dim)).mapM fun i => do
    let row ← (cell_vertices dim)[i]?
    let vs ← (List.range (vertices_per_cell 2)).mapM fun j => do
      let e ← row[j]?
      pure (e % 2 ^ 32).toNat
    pure (CellData.mk vs 0)

/-- Step `triangulation.create_triangulation(vertices, cells, SubCellData())` -/
def State.create_triangulation (st : State) (vertices : List Point2)
    (cells : List CellData) : State :=
  { st with
    triangulation := Mesh.create_triangulation vertices cells
    calls := st.calls ++ [Call.create_triangulation] }

/-- Models `create_coarse_grid<dim>` -/
def create_coarse_grid (dim : Nat) : Option State := do
  let st := State.start
  let cells ← cells dim
  let st := st.create_triangulation vertices cells
  let st ← st.extrude_triangulation 3 1500
  let st := st.print_mesh_info_2d "Hamburg_2D.vtk"
  let st := st.print_mesh_info_3d "Hamburg_3D.vtk"
  pure st

/-- Models `main`: only `create_coarse_grid<3>()` is enabled -/
def main : Option State := create_coarse_grid 3

/-! ## Sample library data -/

/-- The grid `subdivided_hyper_rectangle` produces for repetitions `(3, 2)` and
the corners `(1, -1)`, `(4, 1)`: vertices row by row from the lower left,
`3 x 2` cells -/
def rect_grid : GridData :=
  GridData.mk
    [(1, -1), (2, -1), (3, -1), (4, -1),
     (1, 0), (2, 0), (3, 0), (4, 0),
     (1, 1), (2, 1), (3, 1), (4, 1)]
    [CellData.mk [0, 1, 4, 5] 0, CellData.mk [1, 2, 5, 6] 0, CellData.mk [2, 3, 6, 7] 0,
     CellData.mk [4, 5, 8, 9] 0, CellData.mk [5, 6, 9, 10] 0, CellData.mk [6, 7, 10, 11] 0]

/-! ## Checkers for the tables -/

/-- Lexicographic order on points: by `x`, then by `y` -/
def lexLt (p q : Point2) : Prop :=
  p.1 < q.1 ∨ (p.1 = q.1 ∧ p.2 < q.2)

instance (p q : Point2) : Decidable (lexLt p q) :=
  inferInstanceAs (Decidable (p.1 < q.1 ∨ (p.1 = q.1 ∧ p.2 < q.2)))

instance : IsTrans Point2 lexLt where
  trans := by
    intro p q r h₁ h₂
    unfold lexLt at *
    rcases h₁ with h₁ | ⟨e₁, h₁⟩
    · rcases h₂ with h₂ | ⟨e₂, _⟩
      · exact Or.inl (lt_trans h₁ h₂)
      · exact Or.inl (e₂ ▸ h₁)
    · rcases h₂ with h₂ | ⟨e₂, h₂⟩
      · exact Or.inl (e₁ ▸ h₂)
      · exact Or.inr ⟨e₁.trans e₂, lt_trans h₁ h₂⟩

/-- Every entry of the list is below its successor in `lexLt` -/
def increasing : List Point2 → Bool
  | [] => true
  | [_] => true
  | p :: q :: rest => decide (lexLt p q) && increasing (q :: rest)

/-- The four corners of a cell, looked up in `vertices` in the order of the
row, are `(x, y)`, `(x + 2 s, y)`, `(x, y + 2 s)`, `(x + 2 s, y + 2 s)` -/
def is_square (row : List Int) : Bool :=
  match row with
  | a :: b :: c :: d :: _ =>
    match vertices[a.toNat]?, vertices[b.toNat]?, vertices[c.toNat]?, vertices[d.toNat]? with
    | some pa, some pb, some pc, some pd =>
      decide (pb = (pa.1 + 2 * s, pa.2) ∧ pc = (pa.1, pa.2 + 2 * s) ∧
        pd = (pa.1 + 2 * s, pa.2 + 2 * s))
    | _, _, _, _ => false
  | _ => false

/-! ## Lemmas on the library routines -/

theorem n_active_cells_create {dim : Nat} {P : Type} (vs : List P) (cs : List CellData) :
    (create_triangulation vs cs : Triangulation dim P).n_active_cells = cs.length := by
  simp [create_triangulation, Triangulation.n_active_cells, coarse_ids]

theorem is_coarse_create {dim : Nat} {P : Type} (vs : List P) (cs : List CellData) :
    (create_triangulation vs cs : Triangulation dim P).is_coarse = true := by
  simp [create_triangulation, Triangulation.is_coarse]

theorem length_children (dim : Nat) (c : CellId) :
    (CellId.children dim c).length = 2 ^ dim := by
  simp [CellId.children, max_children_per_cell]

theorem length_flatMap_children (dim : Nat) (l : List CellId) :
    (l.flatMap (CellId.children dim)).length = 2 ^ dim * l.length := by
  induction l with
  | nil => simp
  | cons c l ih =>
    simp only [List.flatMap_cons, List.length_append, List.length_cons, ih, length_children]
    ring

theorem n_active_cells_execute_refinement {dim : Nat} {P : Type} (t : Triangulation dim P) :
    t.execute_refinement.n_active_cells = 2 ^ dim * t.n_active_cells := by
  simp only [Triangulation.execute_refinement, Triangulation.n_active_cells]
  exact length_flatMap_children dim t.active

theorem n_active_cells_refine_global {dim : Nat} {P : Type} (times : Nat) :
    ∀ t : Triangulation dim P,
      (t.refine_global times).n_active_cells = (2 ^ dim) ^ times * t.n_active_cells := by
  induction times with
  | zero => intro t; simp [Triangulation.refine_global]
  | succ n ih =>
    intro t
    rw [Triangulation.refine_global, ih, n_active_cells_execute_refinement]
    ring

theorem length_extruded_cells (cs : List CellData) (layers n : Nat) :
    (cs.flatMap fun cell =>
      (List.range layers).map fun slice_n =>
        CellData.mk
          (cell.vertices.map (fun v => v + slice_n * n) ++
            cell.vertices.map (fun v => v + (slice_n + 1) * n))
          cell.material_id).length = layers * cs.length := by
  induction cs with
  | nil => simp
  | cons c cs ih =>
    simp only [List.flatMap_cons, List.length_append, List.length_map, List.length_range,
      List.length_cons, ih]
    ring

theorem n_active_cells_of_coarse {dim : Nat} {P : Type} (t : Triangulation dim P)
    (h : t.is_coarse = true) : t.n_active_cells = t.cells.length := by
  simp only [Triangulation.is_coarse, decide_eq_true_eq] at h
  simp [Triangulation.n_active_cells, h, coarse_ids]

theorem extrude_triangulation_cells (input : Triangulation 2 Point2) (n_slices : Nat)
    (height : ℚ) (result : Triangulation 3 Point3)
    (h : extrude_triangulation input n_slices height = some result) :
    result.n_active_cells = (n_slices - 1) * input.n_active_cells ∧
      result.is_coarse = true := by
  unfold extrude_triangulation at h
  split at h
  · rename_i hc
    simp only [Option.some.injEq] at h
    subst h
    rw [n_active_cells_create, length_extruded_cells, n_active_cells_of_coarse input hc.1]
    exact ⟨rfl, is_coarse_create _ _⟩
  · simp at h

theorem extrude_triangulation_isSome (input : Triangulation 2 Point2) (n_slices : Nat)
    (height : ℚ) (hc : input.is_coarse = true) (hh : 0 < height) (hn : 2 ≤ n_slices) :
    ∃ result, extrude_triangulation input n_slices height = some result := by
  unfold extrude_triangulation
  rw [if_pos ⟨hc, hh, hn⟩]
  exact ⟨_, rfl⟩

/-! ## Lemmas on the tables -/

theorem lexLt_ne {p q : Point2} (h : lexLt p q) : p ≠ q := by
  rintro rfl
  rcases h with h | ⟨_, h⟩ <;> exact lt_irrefl _ h

theorem chain_of_increasing : ∀ l : List Point2, increasing l = true → List.Chain' lexLt l
  | [], _ => List.chain'_nil
  | [_], _ => List.chain'_singleton _
  | p :: q :: rest, h => by
    simp only [increasing, Bool.and_eq_true, decide_eq_true_eq] at h
    exact List.Chain'.cons h.1 (chain_of_increasing (q :: rest) h.2)

theorem getElem?_ne_of_chain {l : List Point2} (h : List.Chain' lexLt l) {i j : Nat}
    (hij : i < j) (hj : j < l.length) : l[i]? ≠ l[j]? := by
  have hp : l.Pairwise lexLt := List.chain'_iff_pairwise.mp h
  have hi : i < l.length := lt_trans hij hj
  rw [List.getElem?_eq_getElem hi, List.getElem?_eq_getElem hj]
  intro e
  exact lexLt_ne (List.pairwise_iff_getElem.mp hp i j hi hj hij) (Option.some.inj e)

theorem is_square_sound (row : List Int) (h : is_square row = true) :
    ∃ a b c d : Int, ∃ x y : ℚ, row.take 4 = [a, b, c, d] ∧
      vertices[a.toNat]? = some (x, y) ∧
      vertices[b.toNat]? = some (x + 2 * s, y) ∧
      vertices[c.toNat]? = some (x, y + 2 * s) ∧
      vertices[d.toNat]? = some (x + 2 * s, y + 2 * s) := by
  unfold is_square at h
  split at h
  · rename_i a b c d rest
    split at h
    · rename_i pa pb pc pd ha hb hc hd
      simp only [decide_eq_true_eq] at h
      refine ⟨a, b, c, d, pa.1, pa.2, by simp, ha, ?_, ?_, ?_⟩
      · rw [hb, h.1]
      · rw [hc, h.2.1]
      · rw [hd, h.2.2]
    · simp at h
  · simp at h

set_option maxRecDepth 100000 in
theorem increasing_vertices : increasing vertices = true := by decide!

set_option maxRecDepth 100000 in
theorem all_is_square : (cell_vertices 3).all is_square = true := by decide!

/-! ## Lemmas on the builders -/

theorem is_coarse_mesh (grid : GridData) : grid.mesh.is_coarse = true :=
  is_coarse_create _ _

theorem n_active_cells_mesh (grid : GridData) : grid.mesh.n_active_cells = grid.cells.length :=
  n_active_cells_create _ _

theorem two_pos : (0 : ℚ) < 2.0 := by norm_num

theorem cube_hole_eq (hole : GridData) :
    cube_hole hole = (extrude_triangulation hole.mesh 3 2.0).map fun e =>
      State.mk (hole.mesh.refine_global 4) (e.refine_global 4)
        [Call.hyper_cube_with_cylindrical_hole 0.25 1.0, Call.extrude_triangulation 3 2.0,
          Call.refine_global 2 4, Call.refine_global 3 4,
          Call.write_vtk 2 "cube_hole_2D.vtk", Call.write_vtk 3 "cube_hole_3D.vtk"]
        [print_mesh_info (hole.mesh.refine_global 4) "cube_hole_2D.vtk",
          print_mesh_info (e.refine_global 4) "cube_hole_3D.vtk"]
        [("cube_hole_2D.vtk", hole.mesh.refine_global 4)]
        [("cube_hole_3D.vtk", e.refine_global 4)] := by
  unfold cube_hole
  cases h : extrude_triangulation hole.mesh 3 2.0 <;>
    simp [State.start, State.generate, State.extrude_triangulation, State.refine_global_2d,
      State.refine_global_3d, State.print_mesh_info_2d, State.print_mesh_info_3d, h]

theorem subdivided_rect_eq (f : Grid6Func) (rect : GridData) :
    subdivided_rect f rect = (extrude_triangulation rect.mesh 3 2.0).map fun e =>
      State.mk ((transform f.call rect.mesh).refine_global 4) (e.refine_global 4)
        [Call.subdivided_hyper_rectangle [3, 2] (1.0, -1.0) (4.0, 1.0),
          Call.extrude_triangulation 3 2.0, Call.transform,
          Call.refine_global 2 4, Call.refine_global 3 4,
          Call.write_vtk 2 "subdivided_rect_2D.vtk", Call.write_vtk 3 "subdivided_rect_3D.vtk"]
        [print_mesh_info ((transform f.call rect.mesh).refine_global 4) "subdivided_rect_2D.vtk",
          print_mesh_info (e.refine_global 4) "subdivided_rect_3D.vtk"]
        [("subdivided_rect_2D.vtk", (transform f.call rect.mesh).refine_global 4)]
        [("subdivided_rect_3D.vtk", e.refine_global 4)] := by
  unfold subdivided_rect
  cases h : extrude_triangulation rect.mesh 3 2.0 <;>
    simp [State.start, State.generate, State.extrude_triangulation, State.transform,
      State.refine_global_2d, State.refine_global_3d, State.print_mesh_info_2d,
      State.print_mesh_info_3d, h]

theorem merge_cube_rect_eq (merge : GridData → GridData → GridData) (hole rect : GridData) :
    merge_cube_rect merge hole rect =
      (extrude_triangulation (merge hole rect).mesh 3 2.0).map fun e =>
        State.mk ((merge hole rect).mesh.refine_global 4) (e.refine_global 4)
          [Call.hyper_cube_with_cylindrical_hole 0.25 1.0,
            Call.subdivided_hyper_rectangle [3, 2] (1.0, -1.0) (4.0, 1.0),
            Call.merge_triangulations, Call.extrude_triangulation 3 2.0,
            Call.refine_global 2 4, Call.refine_global 3 4,
            Call.write_vtk 2 "merge_cube_rect_2D.vtk", Call.write_vtk 3 "merge_cube_rect_3D.vtk"]
          [print_mesh_info ((merge hole rect).mesh.refine_global 4) "merge_cube_rect_2D.vtk",
            print_mesh_info (e.refine_global 4) "merge_cube_rect_3D.vtk"]
          [("merge_cube_rect_2D.vtk", (merge hole rect).mesh.refine_global 4)]
          [("merge_cube_rect_3D.vtk", e.refine_global 4)] := by
  unfold merge_cube_rect
  cases h : extrude_triangulation (merge hole rect).mesh 3 2.0 <;>
    simp [State.start, State.generate, State.generate_local, State.extrude_triangulation,
      State.refine_global_2d, State.refine_global_3d, State.print_mesh_info_2d,
      State.print_mesh_info_3d, h]

theorem shift_cube_eq (hole : GridData) :
    shift_cube hole = (extrude_triangulation (shift_vertices hole.mesh) 3 2.0).map fun e =>
      State.mk ((shift_vertices hole.mesh).refine_global 2) (e.refine_global 2)
        [Call.hyper_cube_with_cylindrical_hole 0.25 1.0, Call.shift_vertices,
          Call.extrude_triangulation 3 2.0,
          Call.refine_global 2 2, Call.refine_global 3 2,
          Call.write_vtk 2 "shift_cube_2D.vtk", Call.write_vtk 3 "shift_cube_3D.vtk"]
        [print_mesh_info ((shift_vertices hole.mesh).refine_global 2) "shift_cube_2D.vtk",
          print_mesh_info (e.refine_global 2) "shift_cube_3D.vtk"]
        [("shift_cube_2D.vtk", (shift_vertices hole.mesh).refine_global 2)]
        [("shift_cube_3D.vtk", e.refine_global 2)] := by
  unfold shift_cube
  cases h : extrude_triangulation (shift_vertices hole.mesh) 3 2.0 <;>
    simp [State.start, State.generate, State.extrude_triangulation, State.shift_vertices,
      State.refine_global_2d, State.refine_global_3d, State.print_mesh_info_2d,
      State.print_mesh_info_3d, h]

theorem cheese_eq (grid : GridData) :
    cheese grid = (extrude_triangulation grid.mesh 3 2.0).map fun e =>
      State.mk (grid.mesh.refine_global 4) (e.refine_global 4)
        [Call.cheese [3, 2], Call.extrude_triangulation 3 2.0,
          Call.refine_global 2 4, Call.refine_global 3 4,
          Call.write_vtk 2 "cheese_2D.vtk", Call.write_vtk 3 "cheese_3D.vtk"]
        [print_mesh_info (grid.mesh.refine_global 4) "cheese_2D.vtk",
          print_mesh_info (e.refine_global 4) "cheese_3D.vtk"]
        [("cheese_2D.vtk", grid.mesh.refine_global 4)]
        [("cheese_3D.vtk", e.refine_global 4)] := by
  unfold cheese
  cases h : extrude_triangulation grid.mesh 3 2.0 <;>
    simp [State.start, State.generate, State.extrude_triangulation,
      State.refine_global_2d, State.refine_global_3d, State.print_mesh_info_2d,
      State.print_mesh_info_3d, h]

theorem create_coarse_grid_eq (dim : Nat) :
    create_coarse_grid dim = (cells dim).bind fun cs =>
      (extrude_triangulation (create_triangulation vertices cs) 3 1500).map fun e =>
        State.mk (create_triangulation vertices cs) e
          [Call.create_triangulation, Call.extrude_triangulation 3 1500,
            Call.write_vtk 2 "Hamburg_2D.vtk", Call.write_vtk 3 "Hamburg_3D.vtk"]
          [print_mesh_info (create_triangulation vertices cs : Triangulation 2 Point2)
              "Hamburg_2D.vtk",
            print_mesh_info e "Hamburg_3D.vtk"]
          [("Hamburg_2D.vtk", create_triangulation vertices cs)]
          [("Hamburg_3D.vtk", e)] := by
  unfold create_coarse_grid
  cases hc : cells dim with
  | none => simp
  | some cs =>
    cases h : extrude_triangulation (create_triangulation vertices cs) 3 1500 <;>
      simp [State.start, State.create_triangulation, State.extrude_triangulation,
        State.print_mesh_info_2d, State.print_mesh_info_3d, h]

theorem is_coarse_shift_vertices (t : Triangulation 2 Point2) :
    (shift_vertices t).is_coarse = t.is_coarse := rfl

theorem is_coarse_transform (f : Point2 → Point2) (t : Triangulation 2 Point2) :
    (transform f t).is_coarse = t.is_coarse := rfl

theorem n_active_cells_shift_vertices (t : Triangulation 2 Point2) :
    (shift_vertices t).n_active_cells = t.n_active_cells := rfl

/-! ## Lemmas on the loop of `shift_cube` -/

theorem shift_vertex_shift_vertex (v : Point2) :
    shift_vertex (shift_vertex v) = shift_vertex v := by
  unfold shift_vertex
  by_cases h : |v.2 - 1.0| < 1e-5
  · rw [if_pos h]
    have h2 : ¬ |v.2 + 0.5 - 1.0| < 1e-5 := by
      rw [abs_lt] at h ⊢
      intro h3
      norm_num at h h3
      linarith [h.1, h3.2]
    simp only [h2, if_false]
  · simp only [h, if_false]

theorem iterate_succ_of_idempotent {α : Type} (f : α → α) (hf : ∀ x, f (f x) = f x)
    (k : Nat) : ∀ x : α, f^[k + 1] x = f x := by
  induction k with
  | zero => intro x; rfl
  | succ n ih => intro x; rw [Function.iterate_succ_apply, ih, hf]

theorem getElem?_foldl_modify {α : Type} (f : α → α) (idxs : List Nat) :
    ∀ (vs : List α) (j : Nat),
      (idxs.foldl (fun vs index => vs.modify f index) vs)[j]? =
        (vs[j]?).map (f^[idxs.count j]) := by
  induction idxs with
  | nil => intro vs j; simp
  | cons i is ih =>
    intro vs j
    rw [List.foldl_cons, ih, List.getElem?_modify]
    by_cases hij : i = j
    · subst hij
      cases vs[i]? <;> simp [Function.iterate_succ_apply]
    · have hc : (i :: is).count j = is.count j := by
        rw [List.count_cons]; simp [hij]
      rw [hc]
      cases vs[j]? <;> simp [hij]

theorem foldl_shift_cell (cells : List CellData) :
    ∀ vs : List Point2, cells.foldl shift_cell vs =
      (cells.flatMap visited).foldl (fun vs index => vs.modify shift_vertex index) vs := by
  induction cells with
  | nil => intro vs; rfl
  | cons c cs ih =>
    intro vs
    rw [List.foldl_cons, ih, List.flatMap_cons, List.foldl_append]
    rfl

theorem getElem?_shift_vertices (t : Triangulation 2 Point2) (i : Nat) :
    (shift_vertices t).vertices[i]? =
      (t.vertices[i]?).map fun p =>
        if i ∈ t.cells.flatMap visited then shift_vertex p else p := by
  unfold shift_vertices
  simp only
  rw [foldl_shift_cell, getElem?_foldl_modify]
  by_cases hi : i ∈ t.cells.flatMap visited
  · obtain ⟨k, hk⟩ : ∃ k, (t.cells.flatMap visited).count i = k + 1 :=
      Nat.exists_eq_succ_of_ne_zero (Nat.pos_iff_ne_zero.mp (List.count_pos_iff.mpr hi))
    rw [hk]
    cases t.vertices[i]? with
    | none => rfl
    | some p =>
      simp only [Option.map_some', hi, if_true]
      rw [iterate_succ_of_idempotent _ shift_vertex_shift_vertex]
  · rw [List.count_eq_zero.mpr hi]
    cases t.vertices[i]? with
    | none => rfl
    | some p => simp [hi]

/-! ## Lemmas on `create_coarse_grid` -/

set_option maxRecDepth 100000 in
theorem length_cells : (cells 3).map List.length = some 244 := by decide

theorem fifteen_hundred_pos : (0 : ℚ) < 1500 := by norm_num

theorem main_eq :
    ∃ cs e, cells 3 = some cs ∧ cs.length = 244 ∧
      extrude_triangulation (create_triangulation vertices cs) 3 1500 = some e ∧
      e.n_active_cells = 488 ∧ e.is_coarse = true ∧
      main = some (State.mk (create_triangulation vertices cs) e
        [Call.create_triangulation, Call.extrude_triangulation 3 1500,
          Call.write_vtk 2 "Hamburg_2D.vtk", Call.write_vtk 3 "Hamburg_3D.vtk"]
        [MeshInfo.mk 2 244 "Hamburg_2D.vtk", MeshInfo.mk 3 488 "Hamburg_3D.vtk"]
        [("Hamburg_2D.vtk", create_triangulation vertices cs)]
        [("Hamburg_3D.vtk", e)]) := by
  have hl := length_cells
  cases hc : cells 3 with
  | none => rw [hc] at hl; simp at hl
  | some cs =>
    rw [hc] at hl
    simp only [Option.map_some', Option.some.injEq] at hl
    obtain ⟨e, he⟩ := extrude_triangulation_isSome
      (create_triangulation vertices cs) 3 1500 (is_coarse_create _ _)
      fifteen_hundred_pos (by decide)
    have hn := extrude_triangulation_cells _ _ _ _ he
    rw [n_active_cells_create, hl] at hn
    refine ⟨cs, e, rfl, hl, he, hn.1, hn.2, ?_⟩
    rw [main, create_coarse_grid_eq, hc]
    simp only [Option.some_bind, he, Option.map_some', print_mesh_info,
      n_active_cells_create, hl, hn.1]

/-! ## Refined meshes are not coarse -/

theorem child_indices_execute_refinement {dim : Nat} {P : Type} (t : Triangulation dim P) :
    ∀ c ∈ t.execute_refinement.active, c.child_indices ≠ [] := by
  intro c hc
  simp only [Triangulation.execute_refinement, List.mem_flatMap, CellId.children,
    List.mem_map] at hc
  obtain ⟨_, _, k, _, rfl⟩ := hc
  simp

theorem child_indices_refine_global {dim : Nat} {P : Type} (times : Nat) :
    ∀ t : Triangulation dim P, (∀ c ∈ t.active, c.child_indices ≠ []) →
      ∀ c ∈ (t.refine_global times).active, c.child_indices ≠ [] := by
  induction times with
  | zero => intro t h; exact h
  | succ n ih =>
    intro t _
    rw [Triangulation.refine_global]
    exact ih _ (child_indices_execute_refinement t)

theorem child_indices_of_refined {dim : Nat} {P : Type} (times : Nat) (htimes : 0 < times)
    (t : Triangulation dim P) :
    ∀ c ∈ (t.refine_global times).active, c.child_indices ≠ [] := by
  obtain ⟨n, rfl⟩ : ∃ n, times = n + 1 := Nat.exists_eq_succ_of_ne_zero (Nat.pos_iff_ne_zero.mp htimes)
  rw [Triangulation.refine_global]
  exact child_indices_refine_global n _ (child_indices_execute_refinement t)

theorem not_refined_of_coarse {dim : Nat} {P : Type} (t : Triangulation dim P)
    (hc : t.is_coarse = true) (hn : 0 < t.n_active_cells) :
    ¬ ∃ (times : Nat) (u : Triangulation dim P), 0 < times ∧ t = u.refine_global times := by
  rintro ⟨times, u, htimes, h⟩
  have hlen := n_active_cells_of_coarse t hc
  simp only [Triangulation.is_coarse, decide_eq_true_eq] at hc
  have hmem : CellId.mk 0 [] ∈ t.active := by
    rw [hc]
    simp only [coarse_ids, List.mem_map, List.mem_range]
    exact ⟨0, hlen ▸ hn, rfl⟩
  rw [h] at hmem
  exact child_indices_of_refined times htimes u _ hmem rfl

set_option maxRecDepth 100000 in
theorem length_vertices : vertices.length = 292 := by decide

set_option maxRecDepth 100000 in
theorem length_cell_vertices (dim : Nat) : (cell_vertices dim).length = 244 := by
  unfold cell_vertices
  rw [List.length_map]
  rfl

/-! ## The claims on the tables -/

/-- C1, counterexample: the cell table of `create_coarse_grid<3>` does not
have 243 rows. -/
theorem cell_vertices_length_ne_243 : (cell_vertices 3).length ≠ 243 := by
  rw [length_cell_vertices]
  decide

/-- C1, amended: the cell table has exactly 244 rows (the last one has index
243), for every `dim`; so `n_cells` is 244, the copy loop produces 244
`CellData` records and the mesh handed to the library by `main` has 244
cells. -/
theorem cell_vertices_length_eq_244 (dim : Nat) :
    (cell_vertices dim).length = 244 ∧ n_cells dim = 244 ∧
      (cells 3).map List.length = some 244 ∧
      main.map (fun st => st.triangulation.cells.length) = some 244 := by
  refine ⟨length_cell_vertices dim, length_cell_vertices dim, length_cells, ?_⟩
  obtain ⟨cs, e, _, hl, _, _, _, hm⟩ := main_eq
  rw [hm]
  simp [create_triangulation, hl]

/-- C2: the vertex table has exactly 292 entries, so an index is valid exactly
when it is at most 291. -/
theorem vertices_length_eq_292 (i : Nat) :
    vertices.length = 292 ∧ ((∃ p, vertices[i]? = some p) ↔ i ≤ 291) := by
  have hl : vertices.length = 292 := length_vertices
  refine ⟨hl, ?_⟩
  constructor
  · rintro ⟨p, hp⟩
    have := (List.getElem?_eq_some.mp hp).1
    omega
  · intro hi
    have h : i < vertices.length := by omega
    exact ⟨vertices[i], List.getElem?_eq_getElem h⟩

set_option maxRecDepth 100000 in
/-- C3: every entry of every row of the cell table of `create_coarse_grid<3>`
(the four written ones and the zero padding) lies in `[0, 291]` and is a
valid index into `vertices`; every row has the four entries the copy loop
reads, the copy loop succeeds, and every index it stores in a `CellData`
record is a valid index into `vertices`. -/
theorem cell_vertices_in_range :
    (∀ row ∈ cell_vertices 3, 4 ≤ row.length ∧
      ∀ e ∈ row, 0 ≤ e ∧ e ≤ 291 ∧ e.toNat < vertices.length) ∧
    (∃ cs, cells 3 = some cs ∧
      ∀ c ∈ cs, c.vertices.length = 4 ∧ ∀ v ∈ c.vertices, v < vertices.length) := by
  refine ⟨by decide, ?_⟩
  have h : ((cells 3).map fun cs => cs.all fun c =>
      decide (c.vertices.length = 4) && c.vertices.all fun v => decide (v < vertices.length))
      = some true := by decide
  cases hc : cells 3 with
  | none => rw [hc] at h; simp at h
  | some cs =>
    rw [hc] at h
    simp only [Option.map_some', Option.some.injEq, List.all_eq_true, Bool.and_eq_true,
      decide_eq_true_eq] at h
    exact ⟨cs, rfl, h⟩

set_option maxRecDepth 100000 in
/-- C3, witness: the row `{0, 9, 1, 10}` and its entry `9`. -/
theorem cell_vertices_in_range_witness :
    0 ≤ (9 : Int) ∧ (9 : Int) ≤ 291 ∧ (9 : Int).toNat < vertices.length :=
  (cell_vertices_in_range.1 [0, 9, 1, 10, 0, 0, 0, 0] (by decide)).2 9 (by decide)

/-- C6: every cell of the table is an axis-aligned square of side
`2 s = 2000` listed in the order lower left, lower right, upper left, upper
right, so no cell is degenerate or inverted. -/
theorem cells_are_squares (row : List Int) (h : row ∈ cell_vertices 3) :
    ∃ a b c d : Int, ∃ x y : ℚ, row.take 4 = [a, b, c, d] ∧
      vertices[a.toNat]? = some (x, y) ∧
      vertices[b.toNat]? = some (x + 2000, y) ∧
      vertices[c.toNat]? = some (x, y + 2000) ∧
      vertices[d.toNat]? = some (x + 2000, y + 2000) ∧
      (2000 : ℚ) = 2 * s ∧ (0 : ℚ) < 2000 * 2000 := by
  have hs : 2 * s = 2000 := by norm_num [s]
  have hsq := is_square_sound row (List.all_eq_true.mp all_is_square row h)
  rw [hs] at hsq
  obtain ⟨a, b, c, d, x, y, h1, h2, h3, h4, h5⟩ := hsq
  exact ⟨a, b, c, d, x, y, h1, h2, h3, h4, h5, hs.symm, by norm_num⟩

set_option maxRecDepth 100000 in
/-- C6, witness: the first cell `{0, 9, 1, 10}`. -/
theorem cells_are_squares_witness :
    ∃ a b c d : Int, ∃ x y : ℚ, [0, 9, 1, 10, 0, 0, 0, 0].take 4 = [a, b, c, d] ∧
      vertices[a.toNat]? = some (x, y) ∧
      vertices[b.toNat]? = some (x + 2000, y) ∧
      vertices[c.toNat]? = some (x, y + 2000) ∧
      vertices[d.toNat]? = some (x + 2000, y + 2000) ∧
      (2000 : ℚ) = 2 * s ∧ (0 : ℚ) < 2000 * 2000 :=
  cells_are_squares [0, 9, 1, 10, 0, 0, 0, 0] (by decide)

/-- C9: the vertex table is strictly increasing in the lexicographic order
(by `x`, then by `y`); hence entries at different indices are different
points, and two indices that give the same point are the same index. -/
theorem vertices_strictly_increasing :
    List.Chain' lexLt vertices ∧
    (∀ i j : Nat, i < j → j < 292 → vertices[i]? ≠ vertices[j]?) ∧
    (∀ (i j : Nat) (p : Point2), vertices[i]? = some p → vertices[j]? = some p → i = j) := by
  have hl : vertices.length = 292 := length_vertices
  have hchain := chain_of_increasing vertices increasing_vertices
  refine ⟨hchain, ?_, ?_⟩
  · intro i j hij hj
    exact getElem?_ne_of_chain hchain hij (hl ▸ hj)
  · intro i j p hi hj
    have hi' := (List.getElem?_eq_some.mp hi).1
    have hj' := (List.getElem?_eq_some.mp hj).1
    rcases Nat.lt_trichotomy i j with h | h | h
    · exact absurd (hi.trans hj.symm) (getElem?_ne_of_chain hchain h hj')
    · exact h
    · exact absurd (hj.trans hi.symm) (getElem?_ne_of_chain hchain h hi')

/-- C9, witness: the first two vertices differ. -/
theorem vertices_strictly_increasing_witness : vertices[0]? ≠ vertices[1]? :=
  vertices_strictly_increasing.2.1 0 1 (by decide) (by decide)

/-! ## The claims on extrusion and refinement -/

/-- C4, counterexample: `main` prints 244 cells for `Hamburg_2D.vtk` and 488
for `Hamburg_3D.vtk`; the 3D mesh does not have three times the cells of
the 2D mesh. -/
theorem hamburg_3d_count_ne_triple :
    ∃ st, main = some st ∧
      st.console = [MeshInfo.mk 2 244 "Hamburg_2D.vtk", MeshInfo.mk 3 488 "Hamburg_3D.vtk"] ∧
      st.out.n_active_cells ≠ 3 * st.triangulation.n_active_cells := by
  obtain ⟨cs, e, _, hl, _, hn, _, hm⟩ := main_eq
  refine ⟨_, hm, rfl, ?_⟩
  simp only [hn, n_active_cells_create, hl]
  decide

/-- C4, amended: extruding an unrefined 2D mesh with 3 slices and a positive
height succeeds and gives exactly `2 = 3 - 1` times as many cells, one layer
between each pair of consecutive slices; for the hard-coded mesh `main`
prints 244 cells for `Hamburg_2D.vtk` and `488 = 2 * 244` for
`Hamburg_3D.vtk`. -/
theorem extrude_three_slices_doubles (input : Triangulation 2 Point2) (height : ℚ)
    (hc : input.is_coarse = true) (hh : 0 < height) :
    (∃ result, extrude_triangulation input 3 height = some result ∧
      result.n_active_cells = 2 * input.n_active_cells) ∧
    main.map (fun st => st.console) =
      some [MeshInfo.mk 2 244 "Hamburg_2D.vtk", MeshInfo.mk 3 (2 * 244) "Hamburg_3D.vtk"] := by
  constructor
  · obtain ⟨result, hr⟩ := extrude_triangulation_isSome input 3 height hc hh (by decide)
    exact ⟨result, hr, (extrude_triangulation_cells _ _ _ _ hr).1⟩
  · obtain ⟨cs, e, _, _, _, _, _, hm⟩ := main_eq
    rw [hm]
    rfl

/-- C4, witness: the rectangle grid, extruded by height 2. -/
theorem extrude_three_slices_doubles_witness :
    (∃ result, extrude_triangulation rect_grid.mesh 3 2 = some result ∧
      result.n_active_cells = 2 * rect_grid.mesh.n_active_cells) ∧
    main.map (fun st => st.console) =
      some [MeshInfo.mk 2 244 "Hamburg_2D.vtk", MeshInfo.mk 3 (2 * 244) "Hamburg_3D.vtk"] :=
  extrude_three_slices_doubles rect_grid.mesh 2 (by decide) (by decide)

theorem n_active_cells_refine_global_2d {P : Type} (t : Triangulation 2 P) (times : Nat) :
    (t.refine_global times).n_active_cells = 4 ^ times * t.n_active_cells := by
  rw [n_active_cells_refine_global]
  norm_num

theorem n_active_cells_refine_global_3d {P : Type} (t : Triangulation 3 P) (times : Nat) :
    (t.refine_global times).n_active_cells = 8 ^ times * t.n_active_cells := by
  rw [n_active_cells_refine_global]
  norm_num

/-- C5: `refine_global(N)` multiplies the number of active cells by `4^N` in
2D and by `8^N` in 3D; every builder that refines runs to completion and
prints `4^N` times the cell count of its coarse 2D mesh and `8^N` times the
cell count of the extruded coarse mesh, with `N = 4` in `cube_hole`,
`subdivided_rect`, `merge_cube_rect` and `cheese` and `N = 2` in
`shift_cube`. -/
theorem refine_global_cell_counts (t2 : Triangulation 2 Point2) (t3 : Triangulation 3 Point3)
    (N : Nat) (hole rect grid : GridData) (f : Grid6Func)
    (merge : GridData → GridData → GridData) :
    (t2.refine_global N).n_active_cells = 4 ^ N * t2.n_active_cells ∧
    (t3.refine_global N).n_active_cells = 8 ^ N * t3.n_active_cells ∧
    (∃ e st, extrude_triangulation hole.mesh 3 2.0 = some e ∧ cube_hole hole = some st ∧
      st.console =
        [MeshInfo.mk 2 (4 ^ 4 * hole.mesh.n_active_cells) "cube_hole_2D.vtk",
          MeshInfo.mk 3 (8 ^ 4 * e.n_active_cells) "cube_hole_3D.vtk"]) ∧
    (∃ e st, extrude_triangulation rect.mesh 3 2.0 = some e ∧
      subdivided_rect f rect = some st ∧
      st.console =
        [MeshInfo.mk 2 (4 ^ 4 * rect.mesh.n_active_cells) "subdivided_rect_2D.vtk",
          MeshInfo.mk 3 (8 ^ 4 * e.n_active_cells) "subdivided_rect_3D.vtk"]) ∧
    (∃ e st, extrude_triangulation (merge hole rect).mesh 3 2.0 = some e ∧
      merge_cube_rect merge hole rect = some st ∧
      st.console =
        [MeshInfo.mk 2 (4 ^ 4 * (merge hole rect).mesh.n_active_cells) "merge_cube_rect_2D.vtk",
          MeshInfo.mk 3 (8 ^ 4 * e.n_active_cells) "merge_cube_rect_3D.vtk"]) ∧
    (∃ e st, extrude_triangulation grid.mesh 3 2.0 = some e ∧ cheese grid = some st ∧
      st.console =
        [MeshInfo.mk 2 (4 ^ 4 * grid.mesh.n_active_cells) "cheese_2D.vtk",
          MeshInfo.mk 3 (8 ^ 4 * e.n_active_cells) "cheese_3D.vtk"]) ∧
    (∃ e st, extrude_triangulation (shift_vertices hole.mesh) 3 2.0 = some e ∧
      shift_cube hole = some st ∧
      st.console =
        [MeshInfo.mk 2 (4 ^ 2 * (shift_vertices hole.mesh).n_active_cells) "shift_cube_2D.vtk",
          MeshInfo.mk 3 (8 ^ 2 * e.n_active_cells) "shift_cube_3D.vtk"]) := by
  refine ⟨n_active_cells_refine_global_2d t2 N, n_active_cells_refine_global_3d t3 N,
    ?_, ?_, ?_, ?_, ?_⟩
  · obtain ⟨e, he⟩ := extrude_triangulation_isSome hole.mesh 3 2.0 (is_coarse_mesh hole)
      two_pos (by decide)
    refine ⟨e, _, he, by rw [cube_hole_eq, he]; rfl, ?_⟩
    simp only [print_mesh_info, n_active_cells_refine_global_2d,
      n_active_cells_refine_global_3d]
  · obtain ⟨e, he⟩ := extrude_triangulation_isSome rect.mesh 3 2.0 (is_coarse_mesh rect)
      two_pos (by decide)
    refine ⟨e, _, he, by rw [subdivided_rect_eq, he]; rfl, ?_⟩
    simp only [print_mesh_info, n_active_cells_refine_global_2d,
      n_active_cells_refine_global_3d]
    rfl
  · obtain ⟨e, he⟩ := extrude_triangulation_isSome (merge hole rect).mesh 3 2.0
      (is_coarse_mesh _) two_pos (by decide)
    refine ⟨e, _, he, by rw [merge_cube_rect_eq, he]; rfl, ?_⟩
    simp only [print_mesh_info, n_active_cells_refine_global_2d,
      n_active_cells_refine_global_3d]
  · obtain ⟨e, he⟩ := extrude_triangulation_isSome grid.mesh 3 2.0 (is_coarse_mesh grid)
      two_pos (by decide)
    refine ⟨e, _, he, by rw [cheese_eq, he]; rfl, ?_⟩
    simp only [print_mesh_info, n_active_cells_refine_global_2d,
      n_active_cells_refine_global_3d]
  · obtain ⟨e, he⟩ := extrude_triangulation_isSome (shift_vertices hole.mesh) 3 2.0
      (is_coarse_mesh hole) two_pos (by decide)
    refine ⟨e, _, he, by rw [shift_cube_eq, he]; rfl, ?_⟩
    simp only [print_mesh_info, n_active_cells_refine_global_2d,
      n_active_cells_refine_global_3d]

/-! ## The claims on the order of the steps -/

/-- C7, counterexample: `create_coarse_grid<3>` makes no `refine_global` call;
the two meshes it writes are the unrefined 2D mesh and its unrefined
extrusion, and neither is the result of a positive number of global
refinements of any mesh. -/
theorem create_coarse_grid_not_refined :
    ∃ st, main = some st ∧
      st.calls = [Call.create_triangulation, Call.extrude_triangulation 3 1500,
        Call.write_vtk 2 "Hamburg_2D.vtk", Call.write_vtk 3 "Hamburg_3D.vtk"] ∧
      st.vtk_2d = [("Hamburg_2D.vtk", st.triangulation)] ∧
      st.vtk_3d = [("Hamburg_3D.vtk", st.out)] ∧
      (¬ ∃ (times : Nat) (u : Triangulation 2 Point2),
        0 < times ∧ st.triangulation = u.refine_global times) ∧
      (¬ ∃ (times : Nat) (u : Triangulation 3 Point3),
        0 < times ∧ st.out = u.refine_global times) := by
  obtain ⟨cs, e, _, hl, _, hn, hce, hm⟩ := main_eq
  refine ⟨_, hm, rfl, rfl, rfl, ?_, ?_⟩
  · apply not_refined_of_coarse _ (is_coarse_create _ _)
    simp only [n_active_cells_create, hl]
    decide
  · apply not_refined_of_coarse _ hce
    simp only [hn]
    decide

/-- C7, amended: `cube_hole`, `subdivided_rect`, `merge_cube_rect` and `cheese`
refine both meshes by 4 global levels and `shift_cube` by 2, after the
extrusion and before the two files are written: the 3D mesh is extruded from
the unrefined 2D mesh and each file holds the refined mesh.
`create_coarse_grid` does not refine: it writes the 2D mesh as created and
its extrusion. -/
theorem builders_refine_except_coarse_grid (hole rect grid : GridData) (f : Grid6Func)
    (merge : GridData → GridData → GridData) :
    (∃ e st, extrude_triangulation hole.mesh 3 2.0 = some e ∧ cube_hole hole = some st ∧
      st.calls = [Call.hyper_cube_with_cylindrical_hole 0.25 1.0,
        Call.extrude_triangulation 3 2.0, Call.refine_global 2 4, Call.refine_global 3 4,
        Call.write_vtk 2 "cube_hole_2D.vtk", Call.write_vtk 3 "cube_hole_3D.vtk"] ∧
      st.vtk_2d = [("cube_hole_2D.vtk", hole.mesh.refine_global 4)] ∧
      st.vtk_3d = [("cube_hole_3D.vtk", e.refine_global 4)]) ∧
    (∃ e st, extrude_triangulation rect.mesh 3 2.0 = some e ∧
      subdivided_rect f rect = some st ∧
      st.calls = [Call.subdivided_hyper_rectangle [3, 2] (1.0, -1.0) (4.0, 1.0),
        Call.extrude_triangulation 3 2.0, Call.transform,
        Call.refine_global 2 4, Call.refine_global 3 4,
        Call.write_vtk 2 "subdivided_rect_2D.vtk",
        Call.write_vtk 3 "subdivided_rect_3D.vtk"] ∧
      st.vtk_2d = [("subdivided_rect_2D.vtk", (transform f.call rect.mesh).refine_global 4)] ∧
      st.vtk_3d = [("subdivided_rect_3D.vtk", e.refine_global 4)]) ∧
    (∃ e st, extrude_triangulation (merge hole rect).mesh 3 2.0 = some e ∧
      merge_cube_rect merge hole rect = some st ∧
      st.calls = [Call.hyper_cube_with_cylindrical_hole 0.25 1.0,
        Call.subdivided_hyper_rectangle [3, 2] (1.0, -1.0) (4.0, 1.0),
        Call.merge_triangulations,
        Call.extrude_triangulation 3 2.0, Call.refine_global 2 4, Call.refine_global 3 4,
        Call.write_vtk 2 "merge_cube_rect_2D.vtk",
        Call.write_vtk 3 "merge_cube_rect_3D.vtk"] ∧
      st.vtk_2d = [("merge_cube_rect_2D.vtk", (merge hole rect).mesh.refine_global 4)] ∧
      st.vtk_3d = [("merge_cube_rect_3D.vtk", e.refine_global 4)]) ∧
    (∃ e st, extrude_triangulation (shift_vertices hole.mesh) 3 2.0 = some e ∧
      shift_cube hole = some st ∧
      st.calls = [Call.hyper_cube_with_cylindrical_hole 0.25 1.0, Call.shift_vertices,
        Call.extrude_triangulation 3 2.0, Call.refine_global 2 2, Call.refine_global 3 2,
        Call.write_vtk 2 "shift_cube_2D.vtk", Call.write_vtk 3 "shift_cube_3D.vtk"] ∧
      st.vtk_2d = [("shift_cube_2D.vtk", (shift_vertices hole.mesh).refine_global 2)] ∧
      st.vtk_3d = [("shift_cube_3D.vtk", e.refine_global 2)]) ∧
    (∃ e st, extrude_triangulation grid.mesh 3 2.0 = some e ∧ cheese grid = some st ∧
      st.calls = [Call.cheese [3, 2],
        Call.extrude_triangulation 3 2.0, Call.refine_global 2 4, Call.refine_global 3 4,
        Call.write_vtk 2 "cheese_2D.vtk", Call.write_vtk 3 "cheese_3D.vtk"] ∧
      st.vtk_2d = [("cheese_2D.vtk", grid.mesh.refine_global 4)] ∧
      st.vtk_3d = [("cheese_3D.vtk", e.refine_global 4)]) ∧
    (∃ cs e st, cells 3 = some cs ∧
      extrude_triangulation (create_triangulation vertices cs) 3 1500 = some e ∧
      create_coarse_grid 3 = some st ∧
      st.calls = [Call.create_triangulation, Call.extrude_triangulation 3 1500,
        Call.write_vtk 2 "Hamburg_2D.vtk", Call.write_vtk 3 "Hamburg_3D.vtk"] ∧
      st.vtk_2d = [("Hamburg_2D.vtk", create_triangulation vertices cs)] ∧
      st.vtk_3d = [("Hamburg_3D.vtk", e)]) := by
  refine ⟨?_, ?_, ?_, ?_, ?_, ?_⟩
  · obtain ⟨e, he⟩ := extrude_triangulation_isSome hole.mesh 3 2.0 (is_coarse_mesh hole)
      two_pos (by decide)
    exact ⟨e, _, he, by rw [cube_hole_eq, he]; rfl, rfl, rfl, rfl⟩
  · obtain ⟨e, he⟩ := extrude_triangulation_isSome rect.mesh 3 2.0 (is_coarse_mesh rect)
      two_pos (by decide)
    exact ⟨e, _, he, by rw [subdivided_rect_eq, he]; rfl, rfl, rfl, rfl⟩
  · obtain ⟨e, he⟩ := extrude_triangulation_isSome (merge hole rect).mesh 3 2.0
      (is_coarse_mesh _) two_pos (by decide)
    exact ⟨e, _, he, by rw [merge_cube_rect_eq, he]; rfl, rfl, rfl, rfl⟩
  · obtain ⟨e, he⟩ := extrude_triangulation_isSome (shift_vertices hole.mesh) 3 2.0
      (is_coarse_mesh hole) two_pos (by decide)
    exact ⟨e, _, he, by rw [shift_cube_eq, he]; rfl, rfl, rfl, rfl⟩
  · obtain ⟨e, he⟩ := extrude_triangulation_isSome grid.mesh 3 2.0 (is_coarse_mesh grid)
      two_pos (by decide)
    exact ⟨e, _, he, by rw [cheese_eq, he]; rfl, rfl, rfl, rfl⟩
  · obtain ⟨cs, e, hcs, _, he, _, _, hm⟩ := main_eq
    exact ⟨cs, e, _, hcs, he, hm, rfl, rfl, rfl⟩

/-- A `trans` that fixes `-1`, `0` and `1`, as `y ↦ tanh(2 y) / tanh(2)` does,
leaves every vertex of `rect_grid` where it is -/
theorem transform_rect_grid (f : Grid6Func) (hm : f.trans (-1) = -1) (h0 : f.trans 0 = 0)
    (h1 : f.trans 1 = 1) : transform f.call rect_grid.mesh = rect_grid.mesh := by
  simp [transform, rect_grid, GridData.mesh, create_triangulation, Grid6Func.call, hm, h0, h1]

/-- C8, counterexample: in `subdivided_rect` the extrusion is called first and
`GridTools::transform` only after it, so the mesh that is extruded is the
rectangle as generated.  (Run on the rectangle grid; the stand-in for
`trans` agrees with `tanh(2 y) / tanh(2)` on the ordinates `-1`, `0`, `1` of
that grid.) -/
theorem subdivided_rect_extrudes_first :
    ∃ st e, subdivided_rect (Grid6Func.mk fun y => y) rect_grid = some st ∧
      extrude_triangulation rect_grid.mesh 3 2.0 = some e ∧
      st.vtk_3d = [("subdivided_rect_3D.vtk", e.refine_global 4)] ∧
      ∃ pre post, st.calls = pre ++ Call.extrude_triangulation 3 2.0 :: post ∧
        Call.transform ∉ pre ∧ Call.transform ∈ post := by
  obtain ⟨e, he⟩ := extrude_triangulation_isSome rect_grid.mesh 3 2.0
    (is_coarse_mesh rect_grid) two_pos (by decide)
  refine ⟨_, e, by rw [subdivided_rect_eq, he]; rfl, he, rfl,
    [Call.subdivided_hyper_rectangle [3, 2] (1.0, -1.0) (4.0, 1.0)], _, rfl, ?_, ?_⟩
  · simp
  · simp

/-- C8, amended: in `shift_cube` the y-shift is applied to the 2D mesh before
the extrusion, so the 3D mesh written is the (refined) extrusion of the
already shifted 2D mesh.  In `subdivided_rect` the extrusion comes first and
`Grid6Func` is applied to the 2D mesh afterwards: the 3D mesh written is the
(refined) extrusion of the rectangle as generated, whatever `trans` is, and
only the 2D mesh written is transformed. -/
theorem shift_before_and_transform_after_extrusion (f : Grid6Func) (hole rect : GridData) :
    (∃ e st, extrude_triangulation (shift_vertices hole.mesh) 3 2.0 = some e ∧
      shift_cube hole = some st ∧
      st.calls = [Call.hyper_cube_with_cylindrical_hole 0.25 1.0, Call.shift_vertices,
        Call.extrude_triangulation 3 2.0, Call.refine_global 2 2, Call.refine_global 3 2,
        Call.write_vtk 2 "shift_cube_2D.vtk", Call.write_vtk 3 "shift_cube_3D.vtk"] ∧
      st.vtk_2d = [("shift_cube_2D.vtk", (shift_vertices hole.mesh).refine_global 2)] ∧
      st.vtk_3d = [("shift_cube_3D.vtk", e.refine_global 2)]) ∧
    (∃ e st, extrude_triangulation rect.mesh 3 2.0 = some e ∧
      subdivided_rect f rect = some st ∧
      st.calls = [Call.subdivided_hyper_rectangle [3, 2] (1.0, -1.0) (4.0, 1.0),
        Call.extrude_triangulation 3 2.0, Call.transform,
        Call.refine_global 2 4, Call.refine_global 3 4,
        Call.write_vtk 2 "subdivided_rect_2D.vtk",
        Call.write_vtk 3 "subdivided_rect_3D.vtk"] ∧
      st.vtk_2d = [("subdivided_rect_2D.vtk", (transform f.call rect.mesh).refine_global 4)] ∧
      st.vtk_3d = [("subdivided_rect_3D.vtk", e.refine_global 4)]) := by
  constructor
  · obtain ⟨e, he⟩ := extrude_triangulation_isSome (shift_vertices hole.mesh) 3 2.0
      (is_coarse_mesh hole) two_pos (by decide)
    exact ⟨e, _, he, by rw [shift_cube_eq, he]; rfl, rfl, rfl, rfl⟩
  · obtain ⟨e, he⟩ := extrude_triangulation_isSome rect.mesh 3 2.0 (is_coarse_mesh rect)
      two_pos (by decide)
    exact ⟨e, _, he, by rw [subdivided_rect_eq, he]; rfl, rfl, rfl, rfl⟩

/-! ## The claim on the vertex shift -/

theorem mem_visited (cell : CellData) (i : Nat) :
    i ∈ visited cell ↔ ∃ j, j < 4 ∧ cell.vertices[j]? = some i := by
  simp [visited, vertices_per_cell, List.mem_filterMap]

theorem mem_flatMap_visited (cells : List CellData) (i : Nat) :
    i ∈ cells.flatMap visited ↔
      ∃ cell ∈ cells, ∃ j, j < 4 ∧ cell.vertices[j]? = some i := by
  simp only [List.mem_flatMap, mem_visited]

theorem shift_vertex_eq (p : Point2) :
    shift_vertex p = if |p.2 - 1| < 1e-5 then (p.1, p.2 + 0.5) else p := by
  unfold shift_vertex
  norm_num

/-- C10: the update of `shift_cube` is idempotent, so any positive number of
applications equals one; it moves a point by `0.5` in `y` when `|y - 1| <
1e-5` and leaves it alone otherwise.  After the nested loop, a vertex that
is one of the four vertices `cell->vertex(j)`, `j < 4`, of some cell holds
the once-updated point (displaced by exactly `0.5` when it started within
`1e-5` of `y = 1`, unchanged otherwise), however many cells refer to it, and
a vertex no cell refers to is unchanged. -/
theorem shift_vertex_idempotent (v : Point2) (k : Nat) (t : Triangulation 2 Point2)
    (i : Nat) :
    shift_vertex (shift_vertex v) = shift_vertex v ∧
    shift_vertex^[k + 1] v = shift_vertex v ∧
    shift_vertex v = (if |v.2 - 1| < 1e-5 then (v.1, v.2 + 0.5) else v) ∧
    (∀ cell ∈ t.cells, ∀ j < 4, cell.vertices[j]? = some i →
      (shift_vertices t).vertices[i]? =
        (t.vertices[i]?).map fun p =>
          if |p.2 - 1| < 1e-5 then (p.1, p.2 + 0.5) else p) ∧
    ((∀ cell ∈ t.cells, ∀ j < 4, cell.vertices[j]? ≠ some i) →
      (shift_vertices t).vertices[i]? = t.vertices[i]?) ∧
    (shift_vertices t).vertices[i]? =
      (t.vertices[i]?).map fun p =>
        if i ∈ t.cells.flatMap visited then shift_vertex p else p := by
  refine ⟨shift_vertex_shift_vertex v,
    iterate_succ_of_idempotent _ shift_vertex_shift_vertex k v, shift_vertex_eq v,
    ?_, ?_, getElem?_shift_vertices t i⟩
  · intro cell hcell j hj hget
    have hmem : i ∈ t.cells.flatMap visited :=
      (mem_flatMap_visited t.cells i).mpr ⟨cell, hcell, j, hj, hget⟩
    rw [getElem?_shift_vertices]
    cases t.vertices[i]? with
    | none => rfl
    | some p => simp only [Option.map_some', hmem, if_true, shift_vertex_eq]
  · intro hnone
    have hmem : i ∉ t.cells.flatMap visited := by
      intro h
      obtain ⟨cell, hcell, j, hj, hget⟩ := (mem_flatMap_visited t.cells i).mp h
      exact hnone cell hcell j hj hget
    rw [getElem?_shift_vertices]
    cases t.vertices[i]? with
    | none => rfl
    | some p => simp only [Option.map_some', hmem, if_false]

/-- C10, witness: vertex 9 of the rectangle grid, at `(2, 1)`, is the fourth
vertex of the cell `{4, 5, 8, 9}` and also a vertex of the cell
`{5, 6, 9, 10}`; after the loop it lies at `(2, 3/2)`. -/
theorem shift_vertex_idempotent_witness :
    (shift_vertices rect_grid.mesh).vertices[9]? = some (2, 3 / 2) :=
  ((shift_vertex_idempotent (2, 1) 0 rect_grid.mesh 9).2.2.2.1
    (CellData.mk [4, 5, 8, 9] 0) (by decide) 3 (by decide) (by decide)).trans (by decide!)

end Mesh
